import Mathlib

/-!
Shallow embedding of the Self-Diagnosing Communication System (src/app.js):
the stochastic link simulator (CommLinkSimulator.step), the window aggregator
(windowFrom with mean, std, maxVal) and the rule based diagnostic engine
(DiagnosticEngine.diagnose).  JavaScript floating point numbers are modelled
by rationals; the NaN produced by the aggregate statistics on an empty
history is modelled explicitly by the JSNum type, whose comparisons return
false whenever NaN is involved, exactly as in JavaScript.  The random draws
consumed by one call to step are gathered in a Draws record: each randn()
call is an arbitrary rational, each Math.random() call is a rational in
[0, 1), each poisson(...) call is a natural number, and each multiplicative
factor of the form 10 ** (... + randn() * ...) is an arbitrary positive
rational (10 ** x is not rational for rational x; since randn() ranges over
all reals and x maps bijectively to the positive factor 10 ** x, quantifying
over the positive factor is an exact reparametrization of the draw).
-/

namespace SelfDiag

/-- JavaScript number that is either NaN or an actual (rational) value. -/
inductive JSNum where
  | nan : JSNum
  | num (q : ℚ) : JSNum
  deriving DecidableEq

/-- JavaScript comparison x > b for a possibly-NaN x: false when x is NaN. -/
def JSNum.gtQ : JSNum → ℚ → Bool
  | JSNum.nan, _ => false
  | JSNum.num a, b => decide (b < a)

/-- JavaScript comparison x < b for a possibly-NaN x: false when x is NaN. -/
def JSNum.ltQ : JSNum → ℚ → Bool
  | JSNum.nan, _ => false
  | JSNum.num a, b => decide (a < b)

/-- JavaScript comparison x >= b for a possibly-NaN x: false when x is NaN. -/
def JSNum.geQ : JSNum → ℚ → Bool
  | JSNum.nan, _ => false
  | JSNum.num a, b => decide (b ≤ a)

/-- JavaScript comparison x <= b for a possibly-NaN x: false when x is NaN. -/
def JSNum.leQ : JSNum → ℚ → Bool
  | JSNum.nan, _ => false
  | JSNum.num a, b => decide (a ≤ b)

/-- JavaScript Math.round: round half toward positive infinity. -/
def jround (q : ℚ) : ℤ := Int.floor (q + 1/2)

/-- Exact scaled-integer rendering standing in for the JavaScript toFixed
decimal digit string (the digit-string formatting itself is not modelled;
the rendering is a deterministic injective function of the rounded value). -/
def toFixedQ (q : ℚ) (d : ℕ) : String :=
  toString (jround (q * (10 : ℚ) ^ d)) ++ "e-" ++ toString d

/-- JavaScript Number.prototype.toFixed on a possibly-NaN value. -/
def JSNum.toFixed : JSNum → ℕ → String
  | JSNum.nan, _ => "NaN"
  | JSNum.num q, d => toFixedQ q d

/-- JavaScript Number.prototype.toExponential on a possibly-NaN value,
rendered through the same exact scaled-integer stand-in as toFixed. -/
def JSNum.toExponential : JSNum → ℕ → String
  | JSNum.nan, _ => "NaN"
  | JSNum.num q, d => toFixedQ q d ++ "exp"

/-- Fault type tags pushed by the simulator (src/app.js FaultType). -/
inductive FaultType where
  | NONE
  | NOISE_SPIKE
  | WIDEBAND_JAMMER
  | SYNC_LOSS
  | CONGESTION
  | FADING
  deriving DecidableEq

/-- Root cause tags of the diagnostic engine (src/app.js RootCause). -/
inductive RootCause where
  | HEALTHY
  | NOISE_SPIKE
  | WIDEBAND_JAMMER
  | SYNC_LOSS
  | CONGESTION
  | FADING
  | UNKNOWN
  deriving DecidableEq, Inhabited

/-- String tag of a root cause, as in the RootCause object of the source. -/
def RootCause.tag : RootCause → String
  | RootCause.HEALTHY => "healthy"
  | RootCause.NOISE_SPIKE => "noise_spike"
  | RootCause.WIDEBAND_JAMMER => "wideband_jammer"
  | RootCause.SYNC_LOSS => "sync_loss"
  | RootCause.CONGESTION => "congestion"
  | RootCause.FADING => "fading"
  | RootCause.UNKNOWN => "unknown"

/-- The source expression cause.replace(/_/g, " "). -/
def RootCause.display (c : RootCause) : String :=
  (RootCause.tag c).replace "_" " "

/-- Fault configuration record (src/app.js FaultConfig). -/
structure FaultConfig where
  noise_spike_level : ℚ
  jammer_level : ℚ
  sync_loss_prob : ℚ
  congestion_level : ℚ
  fading_severity : ℚ
  deriving DecidableEq

/-- The FaultConfig constructor: all levels zero. -/
def FaultConfig.new : FaultConfig :=
  { noise_spike_level := 0
    jammer_level := 0
    sync_loss_prob := 0
    congestion_level := 0
    fading_severity := 0 }

/-- Simulator state (src/app.js CommLinkSimulator constructor fields). -/
structure CommLinkSimulator where
  t : ℕ
  baseline_snr_db : ℚ
  baseline_ber : ℚ
  baseline_latency_ms : ℚ
  baseline_retries : ℚ
  fault_config : FaultConfig
  deriving DecidableEq

/-- The CommLinkSimulator constructor. -/
def CommLinkSimulator.new : CommLinkSimulator :=
  { t := 0
    baseline_snr_db := 25
    baseline_ber := 1 / 1000000
    baseline_latency_ms := 20
    baseline_retries := 0
    fault_config := FaultConfig.new }

/-- One step() output sample.  The retries field is an integer because the
source applies Math.max(0, Math.round(...)) before returning. -/
structure Sample where
  t : ℕ
  snr_db : ℚ
  ber : ℚ
  latency_ms : ℚ
  retries : ℤ
  active_faults : List FaultType
  deriving DecidableEq

/-- All random draws consumed by one call to step(), in source order.
Fields named g model randn() calls (arbitrary rationals), fields named u
model Math.random() calls (rationals in [0, 1)), fields named p model
poisson(...) calls (naturals), and fields named f model the positive factors
10 ** (...) by which BER is multiplied. -/
structure Draws where
  g_snr : ℚ
  f_ber : ℚ
  g_lat : ℚ
  g_noise_snr : ℚ
  f_noise_ber : ℚ
  g_jam_snr : ℚ
  f_jam_ber : ℚ
  p_jam : ℕ
  g_jam_lat : ℚ
  u_sync : ℚ
  u_sync_ber : ℚ
  g_sync_snr : ℚ
  g_sync_lat : ℚ
  p_sync : ℕ
  g_cong_lat : ℚ
  p_cong : ℕ
  f_cong_ber : ℚ
  g_fad_snr : ℚ
  f_fad_ber : ℚ
  deriving DecidableEq

/-- Validity of a draw record: uniform draws lie in [0, 1) and the factors
standing for powers of ten are positive. -/
def Draws.Valid (d : Draws) : Prop :=
  0 < d.f_ber ∧ 0 < d.f_noise_ber ∧ 0 < d.f_jam_ber ∧ 0 < d.f_cong_ber ∧
    0 < d.f_fad_ber ∧ 0 ≤ d.u_sync ∧ d.u_sync < 1 ∧ 0 ≤ d.u_sync_ber ∧
    d.u_sync_ber < 1

instance (d : Draws) : Decidable d.Valid := by
  unfold Draws.Valid
  infer_instance

/-- Intermediate metric state threaded through the fault blocks of step(). -/
structure Mid where
  snr : ℚ
  ber : ℚ
  latency : ℚ
  retries : ℚ
  faults : List FaultType
  deriving DecidableEq

/-- Baseline metrics plus jitter: the first block of step(). -/
def baseMid (sim : CommLinkSimulator) (d : Draws) : Mid :=
  { snr := sim.baseline_snr_db + d.g_snr * (3/10)
    ber := max (sim.baseline_ber * d.f_ber) (1 / 1000000000)
    latency := sim.baseline_latency_ms + d.g_lat * 1
    retries := sim.baseline_retries
    faults := [] }

/-- Noise spike block of step(). -/
def noiseStage (cfg : FaultConfig) (d : Draws) (m : Mid) : Mid :=
  if 0 < cfg.noise_spike_level then
    { m with
      snr := m.snr - (8 * cfg.noise_spike_level +
        d.g_noise_snr * (1 * cfg.noise_spike_level))
      ber := m.ber * d.f_noise_ber
      faults := m.faults ++ [FaultType.NOISE_SPIKE] }
  else m

/-- Wideband jammer block of step(). -/
def jammerStage (cfg : FaultConfig) (d : Draws) (m : Mid) : Mid :=
  if 0 < cfg.jammer_level then
    { m with
      snr := m.snr - (15 * cfg.jammer_level +
        d.g_jam_snr * (2 * cfg.jammer_level))
      ber := m.ber * d.f_jam_ber
      retries := m.retries +
        ((max 0 (jround (5 * cfg.jammer_level + (d.p_jam : ℚ))) : ℤ) : ℚ)
      latency := m.latency + (5 * cfg.jammer_level +
        d.g_jam_lat * (2 * cfg.jammer_level))
      faults := m.faults ++ [FaultType.WIDEBAND_JAMMER] }
  else m

/-- Sync loss trial of step(): true when the uniform draw falls below the
configured probability (and that probability is positive). -/
def syncOutage (cfg : FaultConfig) (d : Draws) : Bool :=
  decide (0 < cfg.sync_loss_prob) && decide (d.u_sync < cfg.sync_loss_prob)

/-- Sync loss block of step(): on an outage, BER and SNR are overwritten
(not perturbed) while latency and retries are incremented. -/
def syncStage (sim : CommLinkSimulator) (d : Draws) (m : Mid) : Mid :=
  if syncOutage sim.fault_config d then
    { m with
      ber := 1/10 + 8/10 * d.u_sync_ber
      snr := sim.baseline_snr_db + d.g_sync_snr
      latency := m.latency + (200 + d.g_sync_lat * 20)
      retries := m.retries + (5 + (d.p_sync : ℚ))
      faults := m.faults ++ [FaultType.SYNC_LOSS] }
  else m

/-- Congestion block of step(): suppressed during a sync outage. -/
def congestionStage (cfg : FaultConfig) (d : Draws) (m : Mid) : Mid :=
  if decide (0 < cfg.congestion_level) && !syncOutage cfg d then
    { m with
      latency := m.latency + (40 * cfg.congestion_level +
        d.g_cong_lat * (10 * cfg.congestion_level))
      retries := m.retries +
        ((max 0 (jround (3 * cfg.congestion_level + (d.p_cong : ℚ))) : ℤ) : ℚ)
      ber := m.ber * d.f_cong_ber
      faults := m.faults ++ [FaultType.CONGESTION] }
  else m

/-- Fading block of step(): suppressed during a sync outage; the SNR hit is
one sided through the absolute value. -/
def fadingStage (cfg : FaultConfig) (d : Draws) (m : Mid) : Mid :=
  if decide (0 < cfg.fading_severity) && !syncOutage cfg d then
    { m with
      snr := m.snr - (5 * cfg.fading_severity +
        |d.g_fad_snr * (3 * cfg.fading_severity)|)
      ber := m.ber * d.f_fad_ber
      faults := m.faults ++ [FaultType.FADING] }
  else m

/-- Final clipping block of step(): SNR to [-5, 40], BER to [1e-9, 0.5],
latency to at least 1.0, retries rounded and floored at 0. -/
def clipSample (t : ℕ) (m : Mid) : Sample :=
  { t := t
    snr_db := min (max m.snr (-5)) 40
    ber := min (max m.ber (1 / 1000000000)) (1/2)
    latency_ms := max 1 m.latency
    retries := max 0 (jround m.retries)
    active_faults := m.faults }

/-- Metric state after the noise spike and jammer blocks, before the sync
loss trial. -/
def preSyncMid (sim : CommLinkSimulator) (d : Draws) : Mid :=
  jammerStage sim.fault_config d
    (noiseStage sim.fault_config d (baseMid sim d))

/-- Composition of the fault blocks of step(), in source order. -/
def stepMid (sim : CommLinkSimulator) (d : Draws) : Mid :=
  fadingStage sim.fault_config d
    (congestionStage sim.fault_config d
      (syncStage sim d (preSyncMid sim d)))

/-- CommLinkSimulator.step: advances the tick and returns the clipped
sample together with the advanced simulator state. -/
def step (sim : CommLinkSimulator) (d : Draws) : CommLinkSimulator × Sample :=
  ({ sim with t := sim.t + 1 }, clipSample (sim.t + 1) (stepMid sim d))

/-- Windowed statistics record consumed by diagnose (src/app.js windowFrom
return value).  Every field can be NaN when the window is empty. -/
structure WindowStats where
  snr_mean : JSNum
  snr_std : JSNum
  ber_mean : JSNum
  ber_max : JSNum
  latency_mean : JSNum
  retries_mean : JSNum
  deriving DecidableEq

/-- Arithmetic mean, NaN on an empty list (src/app.js mean). -/
def mean (arr : List ℚ) : JSNum :=
  if arr.length = 0 then JSNum.nan
  else JSNum.num (arr.sum / (arr.length : ℚ))

/-- Rational stand-in for Math.sqrt on the variance: the integer square
roots of numerator and denominator, exact when both are perfect squares.
No claim depends on the value of this function, only on the NaN branch of
std for the empty window. -/
def ratSqrt (q : ℚ) : ℚ :=
  (Nat.sqrt q.num.toNat : ℚ) / (Nat.sqrt q.den : ℚ)

/-- Population standard deviation, NaN on an empty list (src/app.js std). -/
def std (arr : List ℚ) : JSNum :=
  if arr.length = 0 then JSNum.nan
  else
    match mean arr with
    | JSNum.nan => JSNum.nan
    | JSNum.num m =>
      JSNum.num (ratSqrt (((arr.map (fun x => (x - m) ^ 2)).sum) /
        (arr.length : ℚ)))

/-- Maximum of a list, NaN on an empty list (src/app.js maxVal).  The none
accumulator models the minus-infinity initial value of the reduce. -/
def maxVal (arr : List ℚ) : JSNum :=
  if arr.length = 0 then JSNum.nan
  else
    match arr.foldl
      (fun a b =>
        match a with
        | none => some b
        | some x => some (if x < b then b else x)) none with
    | none => JSNum.nan
    | some m => JSNum.num m

/-- Window aggregator (src/app.js windowFrom): statistics of the trailing
windowSize samples.  A windowSize of 0 means slice(-0) = slice(0), the
whole history. -/
def windowFrom (history : List Sample) (windowSize : ℕ := 20) : WindowStats :=
  let slice := if windowSize = 0 then history
    else history.drop (history.length - windowSize)
  let snr := slice.map (fun s => s.snr_db)
  let ber := slice.map (fun s => s.ber)
  let lat := slice.map (fun s => s.latency_ms)
  let ret := slice.map (fun s => (s.retries : ℚ))
  { snr_mean := mean snr
    snr_std := std snr
    ber_mean := mean ber
    ber_max := maxVal ber
    latency_mean := mean lat
    retries_mean := mean ret }

/-- One scored vote of a rule for a root cause. -/
structure Evidence where
  root_cause : RootCause
  score : ℚ
  explanation : String
  deriving DecidableEq, Inhabited

/-- Diagnosis record returned by diagnose. -/
structure Diagnosis where
  primary_cause : RootCause
  confidence : ℚ
  ranked_causes : List (RootCause × ℚ)
  explanation : String
  contributing_rules : List Evidence
  suggested_actions : List String
  deriving DecidableEq

/-- Diagnostic engine thresholds (src/app.js DiagnosticEngine fields). -/
structure DiagnosticEngine where
  good_snr_db : ℚ
  moderate_snr_db : ℚ
  bad_snr_db : ℚ
  good_ber : ℚ
  moderate_ber : ℚ
  bad_ber : ℚ
  latency_warn_ms : ℚ
  latency_bad_ms : ℚ
  retries_warn : ℚ
  retries_bad : ℚ
  deriving DecidableEq

/-- The DiagnosticEngine constructor values. -/
def DiagnosticEngine.new : DiagnosticEngine :=
  { good_snr_db := 20
    moderate_snr_db := 12
    bad_snr_db := 8
    good_ber := 1 / 100000
    moderate_ber := 1 / 1000
    bad_ber := 1 / 100
    latency_warn_ms := 80
    latency_bad_ms := 160
    retries_warn := 1
    retries_bad := 3 }

/-- Healthy rule of diagnose: all four metrics nominal, fixed score 1.0. -/
def healthyRule (e : DiagnosticEngine) (w : WindowStats) : Option Evidence :=
  if w.snr_mean.gtQ e.good_snr_db && w.ber_max.ltQ e.good_ber &&
      w.latency_mean.ltQ e.latency_warn_ms && w.retries_mean.leQ e.retries_warn
  then some
    { root_cause := RootCause.HEALTHY
      score := 1
      explanation := "SNR, BER, latency, and retries are nominal." }
  else none

/-- Noise spike rule of diagnose.  The match on snr_mean realizes the NaN
semantics of the first comparison and provides the rational value used by
the severity expression Math.min(1.0, (good - snr_mean) / 10.0). -/
def noiseSpikeRule (e : DiagnosticEngine) (w : WindowStats) : Option Evidence :=
  match w.snr_mean with
  | JSNum.nan => none
  | JSNum.num s =>
    if decide (s < e.good_snr_db) && w.snr_std.gtQ (3/2) &&
        w.ber_max.gtQ e.moderate_ber && w.latency_mean.ltQ e.latency_bad_ms
    then some
      { root_cause := RootCause.NOISE_SPIKE
        score := 4/10 + 6/10 * min 1 ((e.good_snr_db - s) / 10)
        explanation :=
          "Volatile SNR dips with BER bursts and modest latency suggest impulsive noise." }
    else none

/-- Wideband jammer rule of diagnose. -/
def widebandJammerRule (e : DiagnosticEngine) (w : WindowStats) :
    Option Evidence :=
  match w.snr_mean with
  | JSNum.nan => none
  | JSNum.num s =>
    if decide (s < e.moderate_snr_db) && w.ber_mean.gtQ e.moderate_ber &&
        w.retries_mean.geQ e.retries_warn
    then some
      { root_cause := RootCause.WIDEBAND_JAMMER
        score := 5/10 + 5/10 * min 1 ((e.moderate_snr_db - s) / 8)
        explanation :=
          "Persistently poor SNR with high BER and retries indicates strong interference/jamming." }
    else none

/-- Sync loss rule of diagnose. -/
def syncLossRule (e : DiagnosticEngine) (w : WindowStats) : Option Evidence :=
  match w.ber_max with
  | JSNum.nan => none
  | JSNum.num b =>
    if decide (5/100 < b) && w.snr_mean.geQ e.moderate_snr_db
    then some
      { root_cause := RootCause.SYNC_LOSS
        score := 6/10 + 4/10 * min 1 ((b - 5/100) / (25/100))
        explanation :=
          "Very high BER while RF SNR is acceptable points to framing/sync loss." }
    else none

/-- Congestion rule of diagnose. -/
def congestionRule (e : DiagnosticEngine) (w : WindowStats) : Option Evidence :=
  match w.latency_mean with
  | JSNum.nan => none
  | JSNum.num l =>
    if decide (e.latency_warn_ms < l) && w.retries_mean.gtQ e.retries_warn &&
        w.snr_mean.gtQ e.bad_snr_db
    then some
      { root_cause := RootCause.CONGESTION
        score := 4/10 + 6/10 * min 1 ((l - e.latency_warn_ms) / 120)
        explanation :=
          "High latency and retries with tolerable RF conditions suggest congestion." }
    else none

/-- Fading rule of diagnose. -/
def fadingRule (e : DiagnosticEngine) (w : WindowStats) : Option Evidence :=
  match w.snr_std with
  | JSNum.nan => none
  | JSNum.num sd =>
    if w.snr_mean.ltQ e.good_snr_db && decide (2 < sd) &&
        w.ber_mean.gtQ e.good_ber && w.latency_mean.ltQ e.latency_bad_ms
    then some
      { root_cause := RootCause.FADING
        score := 3/10 + 7/10 * min 1 (sd / 5)
        explanation :=
          "Significant SNR fluctuations with elevated BER and modest latency hint at fading." }
    else none

/-- Evidence list accumulated by the six rule blocks of diagnose, in source
order. -/
def ruleEvidences (e : DiagnosticEngine) (w : WindowStats) : List Evidence :=
  (healthyRule e w).toList ++ (noiseSpikeRule e w).toList ++
    (widebandJammerRule e w).toList ++ (syncLossRule e w).toList ++
    (congestionRule e w).toList ++ (fadingRule e w).toList

/-- JavaScript object update scores[c] = (scores[c] || 0) + s on an
insertion-ordered association list: accumulate in place, else append. -/
def addScore : List (RootCause × ℚ) → RootCause → ℚ → List (RootCause × ℚ)
  | [], c, s => [(c, s)]
  | (c2, v) :: rest, c, s =>
    if c2 = c then (c, v + s) :: rest else (c2, v) :: addScore rest c s

/-- JavaScript object assignment scores[c] = s on an insertion-ordered
association list: overwrite in place, else append. -/
def setScore : List (RootCause × ℚ) → RootCause → ℚ → List (RootCause × ℚ)
  | [], c, s => [(c, s)]
  | (c2, v) :: rest, c, s =>
    if c2 = c then (c, s) :: rest else (c2, v) :: setScore rest c s

/-- Per-cause accumulated scores of an evidence list (the scores object of
diagnose, in key insertion order). -/
def scoresOf (evs : List Evidence) : List (RootCause × ℚ) :=
  evs.foldl (fun sc ev => addScore sc ev.root_cause ev.score) []

/-- JavaScript truthiness of an array value: every array object is truthy,
even when empty. -/
def jsArrayTruthy (_l : List Evidence) : Bool := true

/-- Guard of the secondary healthy fallback branch of diagnose: the source
tests the falsiness of the evidences array itself (not its length). -/
def fallbackHealthyGuard (e : DiagnosticEngine) (w : WindowStats) : Bool :=
  !jsArrayTruthy (ruleEvidences e w) && w.ber_max.ltQ e.moderate_ber &&
    w.snr_mean.gtQ e.good_snr_db

/-- Evidence pushed by the secondary healthy fallback branch. -/
def healthyFallbackEvidence : Evidence :=
  { root_cause := RootCause.HEALTHY
    score := 8/10
    explanation := "No anomaly signatures; link appears healthy." }

/-- Scores after the secondary healthy fallback branch of diagnose. -/
def scoresAfterFallback (e : DiagnosticEngine) (w : WindowStats) :
    List (RootCause × ℚ) :=
  if fallbackHealthyGuard e w then
    setScore (scoresOf (ruleEvidences e w)) RootCause.HEALTHY (8/10)
  else scoresOf (ruleEvidences e w)

/-- Evidences after the secondary healthy fallback branch of diagnose. -/
def evidencesAfterFallback (e : DiagnosticEngine) (w : WindowStats) :
    List Evidence :=
  if fallbackHealthyGuard e w then
    ruleEvidences e w ++ [healthyFallbackEvidence]
  else ruleEvidences e w

/-- Guard of the unknown fallback branch: the scores object is empty. -/
def unknownGuard (e : DiagnosticEngine) (w : WindowStats) : Bool :=
  decide ((scoresAfterFallback e w).length = 0)

/-- Evidence pushed by the unknown fallback branch. -/
def unknownEvidence : Evidence :=
  { root_cause := RootCause.UNKNOWN
    score := 1
    explanation := "Patterns do not clearly match any known rule set." }

/-- Final scores object of diagnose, after both fallback branches. -/
def diagScores (e : DiagnosticEngine) (w : WindowStats) :
    List (RootCause × ℚ) :=
  if unknownGuard e w then
    setScore (scoresAfterFallback e w) RootCause.UNKNOWN 1
  else scoresAfterFallback e w

/-- Final evidences list of diagnose, after both fallback branches. -/
def diagEvidences (e : DiagnosticEngine) (w : WindowStats) : List Evidence :=
  if unknownGuard e w then evidencesAfterFallback e w ++ [unknownEvidence]
  else evidencesAfterFallback e w

/-- Normalization divisor: the sum of all per-cause scores. -/
def diagTotal (e : DiagnosticEngine) (w : WindowStats) : ℚ :=
  ((diagScores e w).map (fun p => p.2)).sum

/-- Normalized (cause, probability) entries, still in the insertion order of
the scores object, i.e. in rule enumeration order. -/
def rankedPre (e : DiagnosticEngine) (w : WindowStats) :
    List (RootCause × ℚ) :=
  (diagScores e w).map (fun p => (p.1, p.2 / diagTotal e w))

/-- Insertion of one entry into a descending-ordered list, placed after
every strictly larger probability and before ties: together with sortDesc
this realizes the stable descending sort of the comparator
(a, b) => b[1] - a[1]. -/
def insertDesc (x : RootCause × ℚ) : List (RootCause × ℚ) →
    List (RootCause × ℚ)
  | [] => [x]
  | y :: l => if x.2 < y.2 then y :: insertDesc x l else x :: y :: l

/-- Stable descending insertion sort by probability. -/
def sortDesc : List (RootCause × ℚ) → List (RootCause × ℚ)
  | [] => []
  | x :: l => insertDesc x (sortDesc l)

/-- Ranked causes of diagnose: normalized entries sorted descending by
probability, ties kept in enumeration order. -/
def diagRanked (e : DiagnosticEngine) (w : WindowStats) :
    List (RootCause × ℚ) :=
  sortDesc (rankedPre e w)

/-- Fixed remediation lookup (src/app.js DiagnosticEngine._suggestActions). -/
def suggestActions : RootCause → List String
  | RootCause.HEALTHY =>
    ["No immediate action required. Continue monitoring for emerging anomalies."]
  | RootCause.NOISE_SPIKE =>
    ["Check grounding/shielding to reduce impulsive noise coupling.",
     "Inspect nearby equipment for intermittent high-power emissions.",
     "Increase error-correction strength or interleaving depth if possible."]
  | RootCause.WIDEBAND_JAMMER =>
    ["Evaluate spectral environment and locate strong interferers.",
     "Switch to an alternate channel or band if available.",
     "Apply filtering/notching around the interferer."]
  | RootCause.SYNC_LOSS =>
    ["Verify clock stability and alignment between TX/RX.",
     "Increase preamble length or improve sync acquisition.",
     "Check for framing/configuration mismatches."]
  | RootCause.CONGESTION =>
    ["Reduce offered load or apply traffic shaping.",
     "Increase buffers or enable congestion control mechanisms.",
     "Distribute traffic across additional links if possible."]
  | RootCause.FADING =>
    ["Increase transmit power within limits.",
     "Enable diversity (spatial/frequency/time).",
     "Use more robust modulation/coding during deep fades."]
  | _ =>
    ["Capture additional diagnostics to refine the hypothesis.",
     "Consider extending the rule base for newly observed patterns."]

/-- Explanation synthesis (src/app.js DiagnosticEngine._buildExplanation). -/
def buildExplanation (cause : RootCause) (confidence : ℚ) (w : WindowStats)
    (evidences : List Evidence) : String :=
  let confPct := jround (confidence * 100)
  if cause = RootCause.HEALTHY then
    "Link appears healthy (SNR = " ++ w.snr_mean.toFixed 1 ++
      " dB, BER max = " ++ w.ber_max.toExponential 2 ++ ", latency = " ++
      w.latency_mean.toFixed 0 ++ " ms, retries = " ++
      w.retries_mean.toFixed 1 ++ "). Confidence " ++ toString confPct ++ "%."
  else
    let base := "Most likely root cause: " ++ RootCause.display cause ++
      " (confidence " ++ toString confPct ++ "%). "
    let reasons := String.intercalate " "
      ((evidences.filter (fun ev => ev.root_cause == cause)).map
        (fun ev => ev.explanation))
    base ++ (if reasons = "" then
      "Metric patterns weakly indicate this condition." else reasons)

/-- DiagnosticEngine.diagnose: assembled from the pipeline stages above. -/
def diagnose (e : DiagnosticEngine) (w : WindowStats) : Diagnosis :=
  let ranked := diagRanked e w
  let primary := ranked.headI
  { primary_cause := primary.1
    confidence := primary.2
    ranked_causes := ranked
    explanation := buildExplanation primary.1 primary.2 w (diagEvidences e w)
    contributing_rules := diagEvidences e w
    suggested_actions := suggestActions primary.1 }

/-- State-passing form of the diagnose method: the source reads only the
constant threshold fields of this and assigns nothing to it, so the engine
state is returned unchanged. -/
def diagnoseS (e : DiagnosticEngine) (w : WindowStats) :
    Diagnosis × DiagnosticEngine :=
  (diagnose e w, e)

/-- Two-sided clip to [0, 1], following the wording of the claim about the
noise spike score (the source applies only the upper Math.min). -/
def clip01 (x : ℚ) : ℚ := max 0 (min 1 x)

/-- Concrete draw record used by the witnesses: zero jitter, unit factors. -/
def zeroDraws : Draws :=
  { g_snr := 0, f_ber := 1, g_lat := 0, g_noise_snr := 0, f_noise_ber := 1,
    g_jam_snr := 0, f_jam_ber := 1, p_jam := 0, g_jam_lat := 0, u_sync := 0,
    u_sync_ber := 0, g_sync_snr := 0, g_sync_lat := 0, p_sync := 0,
    g_cong_lat := 0, p_cong := 0, f_cong_ber := 1, g_fad_snr := 0,
    f_fad_ber := 1 }

/-- Concrete simulator with sync loss probability one, used by a witness. -/
def syncSim : CommLinkSimulator :=
  { CommLinkSimulator.new with
    fault_config := { FaultConfig.new with sync_loss_prob := 1 } }

/-- Concrete window on which the noise spike rule fires, used by a
witness. -/
def noiseWitnessWindow : WindowStats :=
  { snr_mean := JSNum.num 15, snr_std := JSNum.num 2,
    ber_mean := JSNum.num (1/1000), ber_max := JSNum.num (2/1000),
    latency_mean := JSNum.num 100, retries_mean := JSNum.num 2 }

/-- Concrete window on which the healthy rule fires, used by a witness. -/
def healthyWitnessWindow : WindowStats :=
  { snr_mean := JSNum.num 25, snr_std := JSNum.num (2/10),
    ber_mean := JSNum.num (1/1000000), ber_max := JSNum.num (1/1000000),
    latency_mean := JSNum.num 20, retries_mean := JSNum.num 0 }

/-! Lemmas about the stable descending sort. -/

lemma mem_insertDesc {x y : RootCause × ℚ} {l : List (RootCause × ℚ)} :
    y ∈ insertDesc x l ↔ y = x ∨ y ∈ l := by
  induction l with
  | nil => simp [insertDesc]
  | cons a l ih =>
    by_cases h : x.2 < a.2
    · simp only [insertDesc, if_pos h, List.mem_cons, ih]
      tauto
    · simp only [insertDesc, if_neg h, List.mem_cons]

lemma perm_insertDesc (x : RootCause × ℚ) (l : List (RootCause × ℚ)) :
    List.Perm (insertDesc x l) (x :: l) := by
  induction l with
  | nil => exact List.Perm.refl _
  | cons a l ih =>
    by_cases h : x.2 < a.2
    · simp only [insertDesc, if_pos h]
      exact (ih.cons a).trans (List.Perm.swap x a l)
    · simp only [insertDesc, if_neg h]
      exact List.Perm.refl _

lemma perm_sortDesc (l : List (RootCause × ℚ)) : List.Perm (sortDesc l) l := by
  induction l with
  | nil => exact List.Perm.refl _
  | cons a l ih => exact (perm_insertDesc a (sortDesc l)).trans (ih.cons a)

lemma pairwise_insertDesc {x : RootCause × ℚ} {l : List (RootCause × ℚ)}
    (h : l.Pairwise (fun a b => b.2 ≤ a.2)) :
    (insertDesc x l).Pairwise (fun a b => b.2 ≤ a.2) := by
  induction l with
  | nil => simp [insertDesc]
  | cons a l ih =>
    rcases List.pairwise_cons.mp h with ⟨ha, hl⟩
    by_cases hx : x.2 < a.2
    · simp only [insertDesc, if_pos hx]
      refine List.pairwise_cons.mpr ⟨?_, ih hl⟩
      intro y hy
      rcases mem_insertDesc.mp hy with rfl | hy2
      · exact le_of_lt hx
      · exact ha y hy2
    · simp only [insertDesc, if_neg hx]
      refine List.pairwise_cons.mpr ⟨?_, h⟩
      intro y hy
      rcases List.mem_cons.mp hy with rfl | hy2
      · exact not_lt.mp hx
      · exact le_trans (ha y hy2) (not_lt.mp hx)

lemma pairwise_sortDesc (l : List (RootCause × ℚ)) :
    (sortDesc l).Pairwise (fun a b => b.2 ≤ a.2) := by
  induction l with
  | nil => simp [sortDesc]
  | cons a l ih => exact pairwise_insertDesc ih

lemma filter_insertDesc (q : ℚ) (x : RootCause × ℚ)
    (l : List (RootCause × ℚ)) :
    (insertDesc x l).filter (fun p => decide (p.2 = q)) =
      if x.2 = q then x :: l.filter (fun p => decide (p.2 = q))
      else l.filter (fun p => decide (p.2 = q)) := by
  induction l with
  | nil =>
    by_cases h : x.2 = q <;> simp [insertDesc, List.filter_cons, h]
  | cons a l ih =>
    by_cases hx : x.2 < a.2
    · rw [show insertDesc x (a :: l) = a :: insertDesc x l from if_pos hx]
      by_cases hq : x.2 = q
      · have ha : ¬ (a.2 = q) := by
          intro h2
          rw [h2] at hx
          rw [hq] at hx
          exact lt_irrefl q hx
        simp [List.filter_cons, ha, hq, ih]
      · simp [List.filter_cons, hq, ih]
    · rw [show insertDesc x (a :: l) = x :: a :: l from if_neg hx]
      by_cases hq : x.2 = q <;> simp [List.filter_cons, hq]

lemma filter_sortDesc (q : ℚ) (l : List (RootCause × ℚ)) :
    (sortDesc l).filter (fun p => decide (p.2 = q)) =
      l.filter (fun p => decide (p.2 = q)) := by
  induction l with
  | nil => rfl
  | cons a l ih =>
    by_cases hq : a.2 = q <;>
      simp [sortDesc, filter_insertDesc, hq, List.filter_cons, ih]

/-! Lemmas about the JSNum comparisons. -/

lemma gtQ_eq_true_iff {x : JSNum} {b : ℚ} :
    x.gtQ b = true ↔ ∃ q, x = JSNum.num q ∧ b < q := by
  cases x with
  | nan => simp [JSNum.gtQ]
  | num a => simp [JSNum.gtQ]

lemma ltQ_eq_true_iff {x : JSNum} {b : ℚ} :
    x.ltQ b = true ↔ ∃ q, x = JSNum.num q ∧ q < b := by
  cases x with
  | nan => simp [JSNum.ltQ]
  | num a => simp [JSNum.ltQ]

lemma geQ_eq_true_iff {x : JSNum} {b : ℚ} :
    x.geQ b = true ↔ ∃ q, x = JSNum.num q ∧ b ≤ q := by
  cases x with
  | nan => simp [JSNum.geQ]
  | num a => simp [JSNum.geQ]

lemma leQ_eq_true_iff {x : JSNum} {b : ℚ} :
    x.leQ b = true ↔ ∃ q, x = JSNum.num q ∧ q ≤ b := by
  cases x with
  | nan => simp [JSNum.leQ]
  | num a => simp [JSNum.leQ]

/-! Positivity of the rule scores. -/

lemma healthyRule_score_pos {e : DiagnosticEngine} {w : WindowStats}
    {ev : Evidence} (h : healthyRule e w = some ev) : 0 < ev.score := by
  unfold healthyRule at h
  split at h
  · rw [Option.some.injEq] at h
    subst h
    norm_num
  · exact absurd h (by simp)

lemma noiseSpikeRule_score_pos {e : DiagnosticEngine} {w : WindowStats}
    {ev : Evidence} (h : noiseSpikeRule e w = some ev) : 0 < ev.score := by
  unfold noiseSpikeRule at h
  rcases hs : w.snr_mean with _ | s
  all_goals rw [hs] at h
  all_goals dsimp only at h
  · exact Option.noConfusion h
  · split at h
    · rename_i hg
      simp only [Bool.and_eq_true, decide_eq_true_eq] at hg
      rw [Option.some.injEq] at h
      subst h
      have hx : 0 < (e.good_snr_db - s) / 10 :=
        div_pos (by linarith [hg.1.1.1]) (by norm_num)
      have hmin : 0 < min (1 : ℚ) ((e.good_snr_db - s) / 10) :=
        lt_min (by norm_num) hx
      have h6 := mul_pos (show (0 : ℚ) < 6/10 by norm_num) hmin
      show (0 : ℚ) < 4/10 + 6/10 * min 1 ((e.good_snr_db - s) / 10)
      linarith
    · exact Option.noConfusion h

lemma widebandJammerRule_score_pos {e : DiagnosticEngine} {w : WindowStats}
    {ev : Evidence} (h : widebandJammerRule e w = some ev) : 0 < ev.score := by
  unfold widebandJammerRule at h
  rcases hs : w.snr_mean with _ | s
  all_goals rw [hs] at h
  all_goals dsimp only at h
  · exact Option.noConfusion h
  · split at h
    · rename_i hg
      simp only [Bool.and_eq_true, decide_eq_true_eq] at hg
      rw [Option.some.injEq] at h
      subst h
      have hx : 0 < (e.moderate_snr_db - s) / 8 :=
        div_pos (by linarith [hg.1.1]) (by norm_num)
      have hmin : 0 < min (1 : ℚ) ((e.moderate_snr_db - s) / 8) :=
        lt_min (by norm_num) hx
      have h5 := mul_pos (show (0 : ℚ) < 5/10 by norm_num) hmin
      show (0 : ℚ) < 5/10 + 5/10 * min 1 ((e.moderate_snr_db - s) / 8)
      linarith
    · exact Option.noConfusion h

lemma syncLossRule_score_pos {e : DiagnosticEngine} {w : WindowStats}
    {ev : Evidence} (h : syncLossRule e w = some ev) : 0 < ev.score := by
  unfold syncLossRule at h
  rcases hs : w.ber_max with _ | b
  all_goals rw [hs] at h
  all_goals dsimp only at h
  · exact Option.noConfusion h
  · split at h
    · rename_i hg
      simp only [Bool.and_eq_true, decide_eq_true_eq] at hg
      rw [Option.some.injEq] at h
      subst h
      have hb : (5/100 : ℚ) < b := hg.1
      have hx : 0 < (b - 5/100) / (25/100) := by
        apply div_pos _ (by norm_num)
        linarith
      have hmin : 0 < min (1 : ℚ) ((b - 5/100) / (25/100)) :=
        lt_min (by norm_num) hx
      have h4 := mul_pos (show (0 : ℚ) < 4/10 by norm_num) hmin
      show (0 : ℚ) < 6/10 + 4/10 * min 1 ((b - 5/100) / (25/100))
      linarith
    · exact Option.noConfusion h

lemma congestionRule_score_pos {e : DiagnosticEngine} {w : WindowStats}
    {ev : Evidence} (h : congestionRule e w = some ev) : 0 < ev.score := by
  unfold congestionRule at h
  rcases hs : w.latency_mean with _ | l
  all_goals rw [hs] at h
  all_goals dsimp only at h
  · exact Option.noConfusion h
  · split at h
    · rename_i hg
      simp only [Bool.and_eq_true, decide_eq_true_eq] at hg
      rw [Option.some.injEq] at h
      subst h
      have hx : 0 < (l - e.latency_warn_ms) / 120 :=
        div_pos (by linarith [hg.1.1]) (by norm_num)
      have hmin : 0 < min (1 : ℚ) ((l - e.latency_warn_ms) / 120) :=
        lt_min (by norm_num) hx
      have h6 := mul_pos (show (0 : ℚ) < 6/10 by norm_num) hmin
      show (0 : ℚ) < 4/10 + 6/10 * min 1 ((l - e.latency_warn_ms) / 120)
      linarith
    · exact Option.noConfusion h

lemma fadingRule_score_pos {e : DiagnosticEngine} {w : WindowStats}
    {ev : Evidence} (h : fadingRule e w = some ev) : 0 < ev.score := by
  unfold fadingRule at h
  rcases hs : w.snr_std with _ | sd
  all_goals rw [hs] at h
  all_goals dsimp only at h
  · exact Option.noConfusion h
  · split at h
    · rename_i hg
      simp only [Bool.and_eq_true, decide_eq_true_eq] at hg
      rw [Option.some.injEq] at h
      subst h
      have hsd : (0 : ℚ) < sd :=
        lt_trans (by norm_num : (0 : ℚ) < 2) hg.1.1.2
      have hx : 0 < sd / 5 := div_pos hsd (by norm_num)
      have hmin : 0 < min (1 : ℚ) (sd / 5) := lt_min (by norm_num) hx
      have h7 := mul_pos (show (0 : ℚ) < 7/10 by norm_num) hmin
      show (0 : ℚ) < 3/10 + 7/10 * min 1 (sd / 5)
      linarith
    · exact Option.noConfusion h

lemma ruleEvidences_score_pos {e : DiagnosticEngine} {w : WindowStats} :
    ∀ ev ∈ ruleEvidences e w, 0 < ev.score := by
  intro ev hev
  unfold ruleEvidences at hev
  simp only [List.mem_append, Option.mem_toList, Option.mem_def] at hev
  rcases hev with ((((h | h) | h) | h) | h) | h
  · exact healthyRule_score_pos h
  · exact noiseSpikeRule_score_pos h
  · exact widebandJammerRule_score_pos h
  · exact syncLossRule_score_pos h
  · exact congestionRule_score_pos h
  · exact fadingRule_score_pos h

/-! Lemmas about the scores association list. -/

lemma addScore_pos (sc : List (RootCause × ℚ)) (c : RootCause) (s : ℚ)
    (hs : 0 < s) :
    (∀ p ∈ sc, 0 < p.2) → ∀ p ∈ addScore sc c s, 0 < p.2 := by
  induction sc with
  | nil =>
    intro _ p hp
    simp only [addScore, List.mem_singleton] at hp
    subst hp
    exact hs
  | cons a sc ih =>
    obtain ⟨c2, v⟩ := a
    intro hsc p hp
    have hv : 0 < v := hsc (c2, v) (List.mem_cons_self _ _)
    have hsc2 : ∀ q ∈ sc, 0 < q.2 := fun q hq =>
      hsc q (List.mem_cons_of_mem _ hq)
    by_cases h : c2 = c
    · simp only [addScore, if_pos h] at hp
      rcases List.mem_cons.mp hp with rfl | hp2
      · exact add_pos hv hs
      · exact hsc2 p hp2
    · simp only [addScore, if_neg h] at hp
      rcases List.mem_cons.mp hp with rfl | hp2
      · exact hv
      · exact ih hsc2 p hp2

lemma scoresFold_pos (evs : List Evidence) :
    ∀ sc : List (RootCause × ℚ), (∀ p ∈ sc, 0 < p.2) →
      (∀ ev ∈ evs, 0 < ev.score) →
      ∀ p ∈ evs.foldl (fun sc ev => addScore sc ev.root_cause ev.score) sc,
        0 < p.2 := by
  induction evs with
  | nil => intro sc hsc _ p hp; exact hsc p hp
  | cons ev evs ih =>
    intro sc hsc hevs p hp
    simp only [List.foldl_cons] at hp
    exact ih (addScore sc ev.root_cause ev.score)
      (addScore_pos sc ev.root_cause ev.score
        (hevs ev (List.mem_cons_self _ _)) hsc)
      (fun x hx => hevs x (List.mem_cons_of_mem _ hx)) p hp

lemma scoresOf_pos {evs : List Evidence} (h : ∀ ev ∈ evs, 0 < ev.score) :
    ∀ p ∈ scoresOf evs, 0 < p.2 :=
  scoresFold_pos evs [] (by simp) h

lemma addScore_ne_nil (sc : List (RootCause × ℚ)) (c : RootCause) (s : ℚ) :
    addScore sc c s ≠ [] := by
  cases sc with
  | nil => simp [addScore]
  | cons a sc =>
    obtain ⟨c2, v⟩ := a
    by_cases h : c2 = c <;> simp [addScore, h]

lemma scoresFold_ne_nil (evs : List Evidence) :
    ∀ sc : List (RootCause × ℚ), sc ≠ [] →
      evs.foldl (fun sc ev => addScore sc ev.root_cause ev.score) sc ≠ [] := by
  induction evs with
  | nil => intro sc h; simpa using h
  | cons ev evs ih =>
    intro sc _
    simp only [List.foldl_cons]
    exact ih _ (addScore_ne_nil _ _ _)

lemma scoresOf_ne_nil {evs : List Evidence} (h : evs ≠ []) :
    scoresOf evs ≠ [] := by
  cases evs with
  | nil => exact absurd rfl h
  | cons ev evs =>
    unfold scoresOf
    simp only [List.foldl_cons]
    exact scoresFold_ne_nil evs _ (addScore_ne_nil _ _ _)

/-! Characterization of the fallback branches. -/

lemma fallbackHealthyGuard_false (e : DiagnosticEngine) (w : WindowStats) :
    fallbackHealthyGuard e w = false := rfl

lemma scoresAfterFallback_eq (e : DiagnosticEngine) (w : WindowStats) :
    scoresAfterFallback e w = scoresOf (ruleEvidences e w) := by
  unfold scoresAfterFallback
  rw [fallbackHealthyGuard_false]
  simp

lemma evidencesAfterFallback_eq (e : DiagnosticEngine) (w : WindowStats) :
    evidencesAfterFallback e w = ruleEvidences e w := by
  unfold evidencesAfterFallback
  rw [fallbackHealthyGuard_false]
  simp

lemma diagScores_eq (e : DiagnosticEngine) (w : WindowStats) :
    diagScores e w =
      if scoresOf (ruleEvidences e w) = [] then [(RootCause.UNKNOWN, 1)]
      else scoresOf (ruleEvidences e w) := by
  unfold diagScores unknownGuard
  rw [scoresAfterFallback_eq]
  by_cases h : scoresOf (ruleEvidences e w) = []
  · rw [h]
    simp [setScore]
  · have h2 : (scoresOf (ruleEvidences e w)).length ≠ 0 := by
      simpa [List.length_eq_zero] using h
    simp [h, h2]

lemma diagEvidences_eq (e : DiagnosticEngine) (w : WindowStats) :
    diagEvidences e w =
      if scoresOf (ruleEvidences e w) = [] then
        ruleEvidences e w ++ [unknownEvidence]
      else ruleEvidences e w := by
  unfold diagEvidences unknownGuard
  rw [scoresAfterFallback_eq, evidencesAfterFallback_eq]
  by_cases h : scoresOf (ruleEvidences e w) = []
  · rw [h]
    simp
  · have h2 : (scoresOf (ruleEvidences e w)).length ≠ 0 := by
      simpa [List.length_eq_zero] using h
    simp [h, h2]

lemma diagScores_pos (e : DiagnosticEngine) (w : WindowStats) :
    ∀ p ∈ diagScores e w, 0 < p.2 := by
  rw [diagScores_eq]
  by_cases h : scoresOf (ruleEvidences e w) = []
  · rw [if_pos h]
    intro p hp
    simp only [List.mem_singleton] at hp
    subst hp
    norm_num
  · rw [if_neg h]
    exact scoresOf_pos ruleEvidences_score_pos

lemma diagScores_ne_nil (e : DiagnosticEngine) (w : WindowStats) :
    diagScores e w ≠ [] := by
  rw [diagScores_eq]
  by_cases h : scoresOf (ruleEvidences e w) = [] <;> simp [h]

lemma diagEvidences_score_pos (e : DiagnosticEngine) (w : WindowStats) :
    ∀ ev ∈ diagEvidences e w, 0 < ev.score := by
  rw [diagEvidences_eq]
  by_cases h : scoresOf (ruleEvidences e w) = []
  · rw [if_pos h]
    intro ev hev
    rcases List.mem_append.mp hev with h2 | h2
    · exact ruleEvidences_score_pos ev h2
    · simp only [List.mem_singleton] at h2
      subst h2
      norm_num [unknownEvidence]
  · rw [if_neg h]
    exact ruleEvidences_score_pos

lemma diagEvidences_ne_nil (e : DiagnosticEngine) (w : WindowStats) :
    diagEvidences e w ≠ [] := by
  rw [diagEvidences_eq]
  by_cases h : scoresOf (ruleEvidences e w) = []
  · simp [h]
  · rw [if_neg h]
    intro hre
    rw [hre] at h
    exact h rfl

lemma diagTotal_pos (e : DiagnosticEngine) (w : WindowStats) :
    0 < diagTotal e w := by
  unfold diagTotal
  apply List.sum_pos
  · intro x hx
    rcases List.mem_map.mp hx with ⟨p, hp, rfl⟩
    exact diagScores_pos e w p hp
  · simpa using diagScores_ne_nil e w

/-! Lemmas about the normalized ranking. -/

lemma rankedPre_sum_aux (l : List (RootCause × ℚ)) (t : ℚ) :
    ((l.map (fun p => (p.1, p.2 / t))).map (fun p => p.2)).sum =
      (l.map (fun p => p.2)).sum / t := by
  induction l with
  | nil => simp
  | cons a l ih =>
    simp only [List.map_cons, List.sum_cons, add_div, ih]

lemma rankedPre_sum (e : DiagnosticEngine) (w : WindowStats) :
    ((rankedPre e w).map (fun p => p.2)).sum = 1 := by
  unfold rankedPre
  rw [rankedPre_sum_aux]
  exact div_self (ne_of_gt (diagTotal_pos e w))

lemma rankedPre_pos (e : DiagnosticEngine) (w : WindowStats) :
    ∀ p ∈ rankedPre e w, 0 < p.2 := by
  intro p hp
  unfold rankedPre at hp
  rcases List.mem_map.mp hp with ⟨q, hq, rfl⟩
  exact div_pos (diagScores_pos e w q hq) (diagTotal_pos e w)

lemma rankedPre_ne_nil (e : DiagnosticEngine) (w : WindowStats) :
    rankedPre e w ≠ [] := by
  unfold rankedPre
  simpa [List.map_eq_nil_iff] using diagScores_ne_nil e w

lemma diagRanked_perm (e : DiagnosticEngine) (w : WindowStats) :
    List.Perm (diagRanked e w) (rankedPre e w) := perm_sortDesc _

lemma diagRanked_sum (e : DiagnosticEngine) (w : WindowStats) :
    ((diagRanked e w).map (fun p => p.2)).sum = 1 := by
  have hperm : List.Perm ((diagRanked e w).map (fun p => p.2))
      ((rankedPre e w).map (fun p => p.2)) := (diagRanked_perm e w).map _
  rw [hperm.sum_eq, rankedPre_sum]

lemma diagRanked_pos (e : DiagnosticEngine) (w : WindowStats) :
    ∀ p ∈ diagRanked e w, 0 < p.2 := fun p hp =>
  rankedPre_pos e w p ((diagRanked_perm e w).mem_iff.mp hp)

lemma diagRanked_ne_nil (e : DiagnosticEngine) (w : WindowStats) :
    diagRanked e w ≠ [] := by
  intro h
  have h2 : List.Perm (rankedPre e w) [] := by
    have h3 := (diagRanked_perm e w).symm
    rwa [h] at h3
  exact rankedPre_ne_nil e w h2.eq_nil

lemma headI_mem {l : List (RootCause × ℚ)} (h : l ≠ []) : l.headI ∈ l := by
  cases l with
  | nil => exact absurd rfl h
  | cons a l => exact List.mem_cons_self _ _

lemma diagnose_of_single (e : DiagnosticEngine) (w : WindowStats)
    (ev : Evidence) (hEvs : ruleEvidences e w = [ev]) (hs : 0 < ev.score) :
    (diagnose e w).primary_cause = ev.root_cause ∧
      (diagnose e w).confidence = 1 := by
  have hsc : scoresOf (ruleEvidences e w) = [(ev.root_cause, ev.score)] := by
    rw [hEvs]
    rfl
  have hds : diagScores e w = [(ev.root_cause, ev.score)] := by
    rw [diagScores_eq, hsc]
    rw [if_neg (by simp)]
  have ht : diagTotal e w = ev.score := by
    unfold diagTotal
    rw [hds]
    simp
  have hrp : rankedPre e w = [(ev.root_cause, 1)] := by
    unfold rankedPre
    rw [hds, ht]
    simp [div_self (ne_of_gt hs)]
  have hrk : diagRanked e w = [(ev.root_cause, 1)] := by
    unfold diagRanked
    rw [hrp]
    rfl
  constructor
  · show (diagRanked e w).headI.1 = ev.root_cause
    rw [hrk]
    rfl
  · show (diagRanked e w).headI.2 = 1
    rw [hrk]
    rfl

lemma diagnose_unknown_of_no_rules (e : DiagnosticEngine) (w : WindowStats)
    (h : ruleEvidences e w = []) :
    diagEvidences e w = [unknownEvidence] ∧
      (diagnose e w).primary_cause = RootCause.UNKNOWN ∧
      (diagnose e w).confidence = 1 := by
  have hsc : scoresOf (ruleEvidences e w) = [] := by
    rw [h]
    rfl
  have hds : diagScores e w = [(RootCause.UNKNOWN, 1)] := by
    rw [diagScores_eq, if_pos hsc]
  have hde : diagEvidences e w = [unknownEvidence] := by
    rw [diagEvidences_eq, if_pos hsc, h]
    rfl
  have ht : diagTotal e w = 1 := by
    unfold diagTotal
    rw [hds]
    simp
  have hrp : rankedPre e w = [(RootCause.UNKNOWN, 1)] := by
    unfold rankedPre
    rw [hds, ht]
    norm_num
  have hrk : diagRanked e w = [(RootCause.UNKNOWN, 1)] := by
    unfold diagRanked
    rw [hrp]
    rfl
  refine ⟨hde, ?_, ?_⟩
  · show (diagRanked e w).headI.1 = RootCause.UNKNOWN
    rw [hrk]
    rfl
  · show (diagRanked e w).headI.2 = 1
    rw [hrk]
    rfl

/-! Lemmas about the simulator stages. -/

lemma congestionStage_of_outage {cfg : FaultConfig} {d : Draws}
    (h : syncOutage cfg d = true) (m : Mid) :
    congestionStage cfg d m = m := by
  unfold congestionStage
  rw [h]
  simp

lemma fadingStage_of_outage {cfg : FaultConfig} {d : Draws}
    (h : syncOutage cfg d = true) (m : Mid) : fadingStage cfg d m = m := by
  unfold fadingStage
  rw [h]
  simp

lemma syncStage_of_outage {sim : CommLinkSimulator} {d : Draws}
    (h : syncOutage sim.fault_config d = true) (m : Mid) :
    syncStage sim d m =
      { snr := sim.baseline_snr_db + d.g_sync_snr
        ber := 1/10 + 8/10 * d.u_sync_ber
        latency := m.latency + (200 + d.g_sync_lat * 20)
        retries := m.retries + (5 + (d.p_sync : ℚ))
        faults := m.faults ++ [FaultType.SYNC_LOSS] } := by
  unfold syncStage
  rw [h]
  rfl

lemma noiseStage_faults_mem {cfg : FaultConfig} {d : Draws} {m : Mid}
    {f : FaultType} (hf : f ∈ (noiseStage cfg d m).faults) :
    f ∈ m.faults ∨ f = FaultType.NOISE_SPIKE := by
  unfold noiseStage at hf
  split at hf
  · simp only [List.mem_append, List.mem_singleton] at hf
    exact hf
  · exact Or.inl hf

lemma jammerStage_faults_mem {cfg : FaultConfig} {d : Draws} {m : Mid}
    {f : FaultType} (hf : f ∈ (jammerStage cfg d m).faults) :
    f ∈ m.faults ∨ f = FaultType.WIDEBAND_JAMMER := by
  unfold jammerStage at hf
  split at hf
  · simp only [List.mem_append, List.mem_singleton] at hf
    exact hf
  · exact Or.inl hf

lemma preSyncMid_faults_mem {sim : CommLinkSimulator} {d : Draws}
    {f : FaultType} (hf : f ∈ (preSyncMid sim d).faults) :
    f = FaultType.NOISE_SPIKE ∨ f = FaultType.WIDEBAND_JAMMER := by
  unfold preSyncMid at hf
  rcases jammerStage_faults_mem hf with hf2 | hf2
  · rcases noiseStage_faults_mem hf2 with hf3 | hf3
    · exact absurd hf3 (List.not_mem_nil f)
    · exact Or.inl hf3
  · exact Or.inr hf2

/-! Claim theorems. -/

/-- C1: for every window, the ranked causes of diagnose are a probability
distribution summing exactly to one, sorted descending by probability with
ties kept in the enumeration order of the rule set (stable with respect to
the normalized pre-ranking), and the primary cause and confidence equal the
head entry of the ranking. -/
theorem diagnose_ranked_distribution (w : WindowStats) :
    ((diagnose DiagnosticEngine.new w).ranked_causes.map
        (fun p => p.2)).sum = 1 ∧
      (diagnose DiagnosticEngine.new w).ranked_causes.Pairwise
        (fun a b => b.2 ≤ a.2) ∧
      (∀ q : ℚ,
        (diagnose DiagnosticEngine.new w).ranked_causes.filter
            (fun p => decide (p.2 = q)) =
          (rankedPre DiagnosticEngine.new w).filter
            (fun p => decide (p.2 = q))) ∧
      (diagnose DiagnosticEngine.new w).primary_cause =
        ((diagnose DiagnosticEngine.new w).ranked_causes.headI).1 ∧
      (diagnose DiagnosticEngine.new w).confidence =
        ((diagnose DiagnosticEngine.new w).ranked_causes.headI).2 := by
  refine ⟨?_, ?_, ?_, rfl, rfl⟩
  · exact diagRanked_sum DiagnosticEngine.new w
  · exact pairwise_sortDesc (rankedPre DiagnosticEngine.new w)
  · intro q
    exact filter_sortDesc q (rankedPre DiagnosticEngine.new w)

/-- C9: the evidence list reaching normalization is never empty, every
score in it is positive, the normalization divisor is positive (so the
division producing probabilities is never a division by zero), and the
returned confidence is positive. -/
theorem normalization_divisor_positive (w : WindowStats) :
    diagEvidences DiagnosticEngine.new w ≠ [] ∧
      (diagEvidences DiagnosticEngine.new w).all
        (fun ev => decide (0 < ev.score)) = true ∧
      0 < diagTotal DiagnosticEngine.new w ∧
      0 < (diagnose DiagnosticEngine.new w).confidence := by
  refine ⟨diagEvidences_ne_nil _ w, ?_, diagTotal_pos _ w, ?_⟩
  · simp only [List.all_eq_true, decide_eq_true_eq]
    exact diagEvidences_score_pos _ w
  · show 0 < (diagRanked DiagnosticEngine.new w).headI.2
    exact diagRanked_pos _ w _ (headI_mem (diagRanked_ne_nil _ w))

/-- C5: the secondary healthy fallback branch of diagnose is unreachable:
its guard tests the falsiness of the evidences array, which is truthy even
when empty, so the guard is false for every window and the branch changes
neither the scores nor the evidences. -/
theorem healthy_fallback_unreachable (e : DiagnosticEngine)
    (w : WindowStats) :
    fallbackHealthyGuard e w = false ∧
      scoresAfterFallback e w = scoresOf (ruleEvidences e w) ∧
      evidencesAfterFallback e w = ruleEvidences e w :=
  ⟨fallbackHealthyGuard_false e w, scoresAfterFallback_eq e w,
    evidencesAfterFallback_eq e w⟩

/-- C6: diagnose is a pure, deterministic function of its window: in the
state passing translation the engine state comes back unchanged and a
second call with the identical window yields a diagnosis identical in every
field. -/
theorem diagnose_pure_idempotent (e : DiagnosticEngine) (w : WindowStats) :
    (diagnoseS e w).2 = e ∧
      (diagnoseS (diagnoseS e w).2 w).1 = (diagnoseS e w).1 ∧
      ((diagnoseS (diagnoseS e w).2 w).1).primary_cause =
        ((diagnoseS e w).1).primary_cause ∧
      ((diagnoseS (diagnoseS e w).2 w).1).confidence =
        ((diagnoseS e w).1).confidence ∧
      ((diagnoseS (diagnoseS e w).2 w).1).ranked_causes =
        ((diagnoseS e w).1).ranked_causes ∧
      ((diagnoseS (diagnoseS e w).2 w).1).explanation =
        ((diagnoseS e w).1).explanation ∧
      ((diagnoseS (diagnoseS e w).2 w).1).contributing_rules =
        ((diagnoseS e w).1).contributing_rules ∧
      ((diagnoseS (diagnoseS e w).2 w).1).suggested_actions =
        ((diagnoseS e w).1).suggested_actions :=
  ⟨rfl, rfl, rfl, rfl, rfl, rfl, rfl, rfl⟩

/-- C2: the window statistics of an empty history are all NaN, no rule
predicate is satisfied on them, the unknown fallback evidence with score
one is the only emitted evidence, and diagnose returns primary cause
unknown with confidence one; every function involved is total, so no error
is possible. -/
theorem diagnose_empty_history_unknown :
    windowFrom [] 20 =
      { snr_mean := JSNum.nan, snr_std := JSNum.nan, ber_mean := JSNum.nan,
        ber_max := JSNum.nan, latency_mean := JSNum.nan,
        retries_mean := JSNum.nan } ∧
      ruleEvidences DiagnosticEngine.new (windowFrom [] 20) = [] ∧
      diagEvidences DiagnosticEngine.new (windowFrom [] 20) =
        [unknownEvidence] ∧
      (diagnose DiagnosticEngine.new (windowFrom [] 20)).primary_cause =
        RootCause.UNKNOWN ∧
      (diagnose DiagnosticEngine.new (windowFrom [] 20)).confidence = 1 := by
  have h : ruleEvidences DiagnosticEngine.new (windowFrom [] 20) = [] := rfl
  obtain ⟨hde, hpc, hcf⟩ :=
    diagnose_unknown_of_no_rules DiagnosticEngine.new (windowFrom [] 20) h
  exact ⟨rfl, h, hde, hpc, hcf⟩

/-- C7: whenever the noise spike rule fires, its score equals
0.4 + 0.6 * clip((20 - snr_mean) / 10, 0, 1) with the two sided clip of the
claim: under the rule predicate the clipped quantity is positive, so the
lower clip is a no-op and agrees with the one sided Math.min of the
source. -/
theorem noise_spike_score_clip (w : WindowStats) (ev : Evidence) (s : ℚ)
    (hs : w.snr_mean = JSNum.num s)
    (h : noiseSpikeRule DiagnosticEngine.new w = some ev) :
    ev.score = 4/10 + 6/10 * clip01 ((20 - s) / 10) := by
  unfold noiseSpikeRule at h
  rw [hs] at h
  dsimp only at h
  split at h
  · rename_i hg
    simp only [Bool.and_eq_true, decide_eq_true_eq] at hg
    rw [Option.some.injEq] at h
    subst h
    have hlt : s < DiagnosticEngine.new.good_snr_db := hg.1.1.1
    have hlt20 : s < 20 := by
      have h20 : DiagnosticEngine.new.good_snr_db = 20 := by
        norm_num [DiagnosticEngine.new]
      rwa [h20] at hlt
    have hx : (0 : ℚ) ≤ min 1 ((20 - s) / 10) :=
      le_min (by norm_num) (div_nonneg (by linarith) (by norm_num))
    show 4/10 + 6/10 * min 1 ((DiagnosticEngine.new.good_snr_db - s) / 10)
        = 4/10 + 6/10 * clip01 ((20 - s) / 10)
    unfold clip01
    rw [max_eq_right hx]
    norm_num [DiagnosticEngine.new]
  · exact Option.noConfusion h

/-- Witness for C7 at a concrete window on which the noise spike rule
fires. -/
theorem noise_spike_score_clip_witness :
    ({ root_cause := RootCause.NOISE_SPIKE,
       score := 4/10 + 6/10 * min 1 ((20 - (15 : ℚ)) / 10),
       explanation :=
         "Volatile SNR dips with BER bursts and modest latency suggest impulsive noise." } :
      Evidence).score = 4/10 + 6/10 * clip01 ((20 - 15) / 10) :=
  noise_spike_score_clip noiseWitnessWindow _ 15 rfl (by
    unfold noiseSpikeRule noiseWitnessWindow
    norm_num [JSNum.gtQ, JSNum.ltQ, DiagnosticEngine.new])

/-- C10: when the healthy rule fires, each of the five fault rules is
mutually exclusive with it and emits nothing, and diagnose returns primary
cause healthy with confidence exactly one. -/
theorem healthy_rule_exclusive (w : WindowStats) (ev : Evidence)
    (h : healthyRule DiagnosticEngine.new w = some ev) :
    noiseSpikeRule DiagnosticEngine.new w = none ∧
      widebandJammerRule DiagnosticEngine.new w = none ∧
      syncLossRule DiagnosticEngine.new w = none ∧
      congestionRule DiagnosticEngine.new w = none ∧
      fadingRule DiagnosticEngine.new w = none ∧
      (diagnose DiagnosticEngine.new w).primary_cause =
        RootCause.HEALTHY ∧
      (diagnose DiagnosticEngine.new w).confidence = 1 := by
  have h2 := h
  unfold healthyRule at h2
  split at h2
  case isTrue hg =>
    simp only [Bool.and_eq_true] at hg
    obtain ⟨⟨⟨hg1, hg2⟩, hg3⟩, hg4⟩ := hg
    obtain ⟨s, hsm, hs⟩ := gtQ_eq_true_iff.mp hg1
    obtain ⟨b, hbm, hb⟩ := ltQ_eq_true_iff.mp hg2
    obtain ⟨l, hlm, hl⟩ := ltQ_eq_true_iff.mp hg3
    rw [Option.some.injEq] at h2
    have hmod : DiagnosticEngine.new.moderate_snr_db <
        DiagnosticEngine.new.good_snr_db := by
      norm_num [DiagnosticEngine.new]
    have hgb : DiagnosticEngine.new.good_ber ≤ 5/100 := by
      norm_num [DiagnosticEngine.new]
    have hnoise : noiseSpikeRule DiagnosticEngine.new w = none := by
      have hf : decide (s < DiagnosticEngine.new.good_snr_db) = false :=
        decide_eq_false (not_lt.mpr (le_of_lt hs))
      unfold noiseSpikeRule
      rw [hsm]
      simp [hf]
    have hjam : widebandJammerRule DiagnosticEngine.new w = none := by
      have hf : decide (s < DiagnosticEngine.new.moderate_snr_db) = false :=
        decide_eq_false (not_lt.mpr (le_of_lt (lt_trans hmod hs)))
      unfold widebandJammerRule
      rw [hsm]
      simp [hf]
    have hsync2 : syncLossRule DiagnosticEngine.new w = none := by
      have hf : decide ((5/100 : ℚ) < b) = false :=
        decide_eq_false (not_lt.mpr (le_of_lt (lt_of_lt_of_le hb hgb)))
      unfold syncLossRule
      rw [hbm]
      simp [hf]
    have hcong : congestionRule DiagnosticEngine.new w = none := by
      have hf : decide (DiagnosticEngine.new.latency_warn_ms < l) = false :=
        decide_eq_false (not_lt.mpr (le_of_lt hl))
      unfold congestionRule
      rw [hlm]
      simp [hf]
    have hfad : fadingRule DiagnosticEngine.new w = none := by
      have hf : JSNum.ltQ w.snr_mean DiagnosticEngine.new.good_snr_db
          = false := by
        rw [hsm]
        simp only [JSNum.ltQ]
        exact decide_eq_false (not_lt.mpr (le_of_lt hs))
      unfold fadingRule
      rcases hstd : w.snr_std with _ | sd
      · rfl
      · simp [hf]
    have hEvs : ruleEvidences DiagnosticEngine.new w = [ev] := by
      unfold ruleEvidences
      rw [h, hnoise, hjam, hsync2, hcong, hfad]
      rfl
    have hscore : (0 : ℚ) < ev.score := by
      rw [← h2]
      norm_num
    obtain ⟨hpc, hcf⟩ :=
      diagnose_of_single DiagnosticEngine.new w ev hEvs hscore
    refine ⟨hnoise, hjam, hsync2, hcong, hfad, ?_, hcf⟩
    rw [hpc, ← h2]
  case isFalse =>
    exact Option.noConfusion h2

/-- Witness for C10 at a concrete window on which the healthy rule
fires. -/
theorem healthy_rule_exclusive_witness :
    noiseSpikeRule DiagnosticEngine.new healthyWitnessWindow = none ∧
      widebandJammerRule DiagnosticEngine.new healthyWitnessWindow = none ∧
      syncLossRule DiagnosticEngine.new healthyWitnessWindow = none ∧
      congestionRule DiagnosticEngine.new healthyWitnessWindow = none ∧
      fadingRule DiagnosticEngine.new healthyWitnessWindow = none ∧
      (diagnose DiagnosticEngine.new healthyWitnessWindow).primary_cause =
        RootCause.HEALTHY ∧
      (diagnose DiagnosticEngine.new healthyWitnessWindow).confidence = 1 :=
  healthy_rule_exclusive healthyWitnessWindow
    { root_cause := RootCause.HEALTHY, score := 1,
      explanation := "SNR, BER, latency, and retries are nominal." }
    (by
      unfold healthyRule healthyWitnessWindow
      norm_num [JSNum.gtQ, JSNum.ltQ, JSNum.leQ, DiagnosticEngine.new])

/-- C4: for every simulator state (hence every fault configuration,
including negative or extreme levels) and every outcome of the random
draws, the sample returned by step satisfies the clamped ranges: SNR in
[-5, 40], BER in [1e-9, 0.5], latency at least 1, and retries a
non-negative integer (integrality holds by the type of the field). -/
theorem step_output_within_ranges (sim : CommLinkSimulator) (d : Draws) :
    -5 ≤ ((step sim d).2).snr_db ∧ ((step sim d).2).snr_db ≤ 40 ∧
      1e-9 ≤ ((step sim d).2).ber ∧ ((step sim d).2).ber ≤ 0.5 ∧
      1 ≤ ((step sim d).2).latency_ms ∧ 0 ≤ ((step sim d).2).retries := by
  simp only [step, clipSample]
  refine ⟨?_, ?_, ?_, ?_, ?_, ?_⟩
  · exact le_min (le_max_right _ _) (by norm_num)
  · exact min_le_right _ _
  · exact le_min (le_trans (by norm_num) (le_max_right _ _)) (by norm_num)
  · exact le_trans (min_le_right _ _) (by norm_num)
  · exact le_max_left _ _
  · exact le_max_left _ _

/-- C8: when all five fault levels are exactly zero, every step call
returns a sample whose active fault list is empty, for every outcome of the
random draws. -/
theorem zero_levels_no_faults (sim : CommLinkSimulator) (d : Draws)
    (h1 : sim.fault_config.noise_spike_level = 0)
    (h2 : sim.fault_config.jammer_level = 0)
    (h3 : sim.fault_config.sync_loss_prob = 0)
    (h4 : sim.fault_config.congestion_level = 0)
    (h5 : sim.fault_config.fading_severity = 0) :
    ((step sim d).2).active_faults = [] := by
  have hsync : syncOutage sim.fault_config d = false := by
    unfold syncOutage
    rw [h3]
    simp
  have hmid : stepMid sim d = baseMid sim d := by
    unfold stepMid preSyncMid noiseStage jammerStage syncStage
      congestionStage fadingStage
    rw [hsync]
    simp [h1, h2, h4, h5]
  show (clipSample (sim.t + 1) (stepMid sim d)).active_faults = []
  rw [hmid]
  rfl

/-- Witness for C8 at the default simulator and a concrete draw record. -/
theorem zero_levels_no_faults_witness :
    ((step CommLinkSimulator.new zeroDraws).2).active_faults = [] :=
  zero_levels_no_faults CommLinkSimulator.new zeroDraws (by decide)
    (by decide) (by decide) (by decide) (by decide)

/-- C3: with sync loss probability one every step declares an outage: BER
is overwritten (not multiplied) to 0.1 plus 0.8 times a fresh uniform draw
and, after the final clip, lies in [0.1, 0.9]; SNR is overwritten to
baseline plus jitter (then clipped); and the congestion and fading blocks
are suppressed, so their tags never co-occur with the sync loss tag. -/
theorem sync_loss_overrides (sim : CommLinkSimulator) (d : Draws)
    (hp : sim.fault_config.sync_loss_prob = 1) (hv : d.Valid) :
    syncOutage sim.fault_config d = true ∧
      ((step sim d).2).ber =
        min (max (1/10 + 8/10 * d.u_sync_ber) (1 / 1000000000)) (1/2) ∧
      1/10 ≤ ((step sim d).2).ber ∧ ((step sim d).2).ber ≤ 9/10 ∧
      ((step sim d).2).snr_db =
        min (max (sim.baseline_snr_db + d.g_sync_snr) (-5)) 40 ∧
      FaultType.SYNC_LOSS ∈ ((step sim d).2).active_faults ∧
      FaultType.CONGESTION ∉ ((step sim d).2).active_faults ∧
      FaultType.FADING ∉ ((step sim d).2).active_faults := by
  obtain ⟨hf1, hf2, hf3, hf4, hf5, hu0, hu1, hb0, hb1⟩ := hv
  have hout : syncOutage sim.fault_config d = true := by
    unfold syncOutage
    rw [hp]
    simp only [Bool.and_eq_true, decide_eq_true_eq]
    exact ⟨by norm_num, hu1⟩
  have hmid : stepMid sim d = syncStage sim d (preSyncMid sim d) := by
    unfold stepMid
    rw [congestionStage_of_outage hout, fadingStage_of_outage hout]
  have hsample : (step sim d).2 = clipSample (sim.t + 1)
      { snr := sim.baseline_snr_db + d.g_sync_snr
        ber := 1/10 + 8/10 * d.u_sync_ber
        latency := (preSyncMid sim d).latency + (200 + d.g_sync_lat * 20)
        retries := (preSyncMid sim d).retries + (5 + (d.p_sync : ℚ))
        faults := (preSyncMid sim d).faults ++ [FaultType.SYNC_LOSS] } := by
    show clipSample (sim.t + 1) (stepMid sim d) = _
    rw [hmid, syncStage_of_outage hout]
  rw [hsample]
  have h08 : (0 : ℚ) ≤ 8/10 * d.u_sync_ber :=
    mul_nonneg (by norm_num) hb0
  refine ⟨hout, rfl, ?_, ?_, rfl, ?_, ?_, ?_⟩
  · show (1/10 : ℚ) ≤
      min (max (1/10 + 8/10 * d.u_sync_ber) (1 / 1000000000)) (1/2)
    exact le_min (le_max_of_le_left (by linarith)) (by norm_num)
  · show min (max (1/10 + 8/10 * d.u_sync_ber) (1 / 1000000000)) (1/2) ≤
      (9/10 : ℚ)
    exact le_trans (min_le_right _ _) (by norm_num)
  · show FaultType.SYNC_LOSS ∈
      (preSyncMid sim d).faults ++ [FaultType.SYNC_LOSS]
    simp
  · show FaultType.CONGESTION ∉
      (preSyncMid sim d).faults ++ [FaultType.SYNC_LOSS]
    intro hmem
    simp only [List.mem_append, List.mem_singleton] at hmem
    rcases hmem with hmem | hmem
    · rcases preSyncMid_faults_mem hmem with hcontra | hcontra <;>
        exact FaultType.noConfusion hcontra
    · exact FaultType.noConfusion hmem
  · show FaultType.FADING ∉
      (preSyncMid sim d).faults ++ [FaultType.SYNC_LOSS]
    intro hmem
    simp only [List.mem_append, List.mem_singleton] at hmem
    rcases hmem with hmem | hmem
    · rcases preSyncMid_faults_mem hmem with hcontra | hcontra <;>
        exact FaultType.noConfusion hcontra
    · exact FaultType.noConfusion hmem

/-- Witness for C3 at a concrete simulator with sync loss probability one
and a concrete valid draw record. -/
theorem sync_loss_overrides_witness :
    syncOutage syncSim.fault_config zeroDraws = true ∧
      ((step syncSim zeroDraws).2).ber =
        min (max (1/10 + 8/10 * zeroDraws.u_sync_ber) (1 / 1000000000))
          (1/2) ∧
      1/10 ≤ ((step syncSim zeroDraws).2).ber ∧
      ((step syncSim zeroDraws).2).ber ≤ 9/10 ∧
      ((step syncSim zeroDraws).2).snr_db =
        min (max (syncSim.baseline_snr_db + zeroDraws.g_sync_snr) (-5)) 40 ∧
      FaultType.SYNC_LOSS ∈ ((step syncSim zeroDraws).2).active_faults ∧
      FaultType.CONGESTION ∉ ((step syncSim zeroDraws).2).active_faults ∧
      FaultType.FADING ∉ ((step syncSim zeroDraws).2).active_faults :=
  sync_loss_overrides syncSim zeroDraws (by decide) (by decide)

end SelfDiag
